import Mathlib

/-!
Verification of the Swuva buyer app's authentication/session subsystem.

The definitions below are a shallow embedding of the TypeScript source:
the Zustand auth store (`src/stores/auth.ts`), the axios client
interceptors (`src/lib/api.ts`), the auth service
(`src/features/auth/services/auth.service.ts`), the TanStack Query
orchestration hooks (`src/features/auth/hooks/useAuth.ts`), the splash
navigation guard (`app/splash.tsx`), the OTP verification screen
(countdown and auto-submit logic), and the forgot-password screen.
JavaScript truthiness on strings and numbers is modelled explicitly
(`jsOrStr`, `jsOrNat`); optional chaining becomes `Option`.
-/

/-! ## Persisted client session store (src/stores/auth.ts) -/

inductive UserRole
  | BUYER
  | SELLER
  | ADMIN
deriving DecidableEq, Repr

structure StoreUser where
  id : String
  email : String
  name : Option String
  role : UserRole
deriving DecidableEq, Repr

structure AuthState where
  user : Option StoreUser
  token : Option String
  isAuthenticated : Bool
  isHydrated : Bool
  rememberedEmail : Option String
deriving DecidableEq, Repr

def initialAuthState : AuthState :=
  { user := none, token := none, isAuthenticated := false,
    isHydrated := false, rememberedEmail := none }

def setAuth (s : AuthState) (u : StoreUser) (t : String) : AuthState :=
  { s with user := some u, token := some t, isAuthenticated := true }

def logout (s : AuthState) : AuthState :=
  { s with user := none, token := none, isAuthenticated := false }

def setHydratedAction (s : AuthState) (h : Bool) : AuthState :=
  { s with isHydrated := h }

def setRememberedEmailAction (s : AuthState) (e : Option String) : AuthState :=
  { s with rememberedEmail := e }

/-- The slice written to durable storage by the persist middleware
(`partialize`): user, token, isAuthenticated, rememberedEmail only. -/
structure PersistSlice where
  user : Option StoreUser
  token : Option String
  isAuthenticated : Bool
  rememberedEmail : Option String
deriving DecidableEq, Repr

def persistSlice (s : AuthState) : PersistSlice :=
  { user := s.user, token := s.token,
    isAuthenticated := s.isAuthenticated, rememberedEmail := s.rememberedEmail }

/-- Applying a loaded slice to the in-memory defaults; the hydration flag
is not persisted and always starts false. -/
def restorePersisted (p : PersistSlice) : AuthState :=
  { user := p.user, token := p.token, isAuthenticated := p.isAuthenticated,
    isHydrated := false, rememberedEmail := p.rememberedEmail }

/-- Outcome of the durable-storage load at startup. -/
inductive RehydrateOutcome
  | loaded (p : PersistSlice)
  | failed (msg : String)
deriving DecidableEq, Repr

/-- The `onRehydrateStorage` completion callback: it unconditionally sets
`isHydrated := true`, for both the success and the error outcome. -/
def onRehydrateFinished (s : AuthState) : AuthState :=
  { s with isHydrated := true }

/-- Startup hydration: load (or fall back to defaults on error), then run
the completion callback. -/
def hydrateStore (r : RehydrateOutcome) : AuthState :=
  onRehydrateFinished
    (match r with
     | .loaded p => restorePersisted p
     | .failed _ => initialAuthState)

/-! ## Secure credential store (expo-secure-store, as a key-value map) -/

abbrev SecureKV := List (String × String)

def deleteItem : SecureKV → String → SecureKV
  | [], _ => []
  | p :: rest, k => if p.1 = k then deleteItem rest k else p :: deleteItem rest k

def getItem : SecureKV → String → Option String
  | [], _ => none
  | p :: rest, k => if p.1 = k then some p.2 else getItem rest k

def setItem (st : SecureKV) (k v : String) : SecureKV :=
  (k, v) :: deleteItem st k

def tokenKey : String := "swuva-auth-token"

def legacyAuthKey : String := "swuva-auth"

/-! ## API error normalization and response interceptor (src/lib/api.ts) -/

structure ApiError where
  message : String
  code : String
  status : Nat
  errors : Option (List (String × List String))
deriving DecidableEq, Repr

/-- The raw axios error as seen by the response interceptor:
`error.response?.status`, `error.response?.data?.message`,
`error.response?.data?.code`, `error.response?.data?.errors`,
`error.message`. -/
structure RawAxiosError where
  responseStatus : Option Nat
  dataMessage : Option String
  dataCode : Option String
  dataErrors : Option (List (String × List String))
  message : String
deriving DecidableEq, Repr

/-- JavaScript `a || b` on an optional string: empty string is falsy. -/
def jsOrStr (v : Option String) (d : String) : String :=
  match v with
  | some s => if s = "" then d else s
  | none => d

/-- JavaScript `a || b` on an optional number: zero is falsy. -/
def jsOrNat (v : Option Nat) (d : Nat) : Nat :=
  match v with
  | some n => if n = 0 then d else n
  | none => d

def normalizeApiError (e : RawAxiosError) : ApiError :=
  { message := jsOrStr e.dataMessage
      (jsOrStr (some e.message) "An unexpected error occurred"),
    code := jsOrStr e.dataCode "UNKNOWN_ERROR",
    status := jsOrNat e.responseStatus 500,
    errors := e.dataErrors }

/-- The process-wide client state the interceptor can touch: the persisted
session store and the secure key-value store. -/
structure ClientWorld where
  auth : AuthState
  secure : SecureKV
deriving DecidableEq, Repr

def initialWorld : ClientWorld :=
  { auth := initialAuthState, secure := [] }

/-- The response interceptor's error handler: on a 401 response it deletes
the two secure-storage keys, then rejects with the normalized error.  It
never touches the persisted session store. -/
def interceptResponseError (w : ClientWorld) (e : RawAxiosError) :
    ClientWorld × ApiError :=
  let secure :=
    if e.responseStatus = some 401 then
      deleteItem (deleteItem w.secure tokenKey) legacyAuthKey
    else
      w.secure
  ({ w with secure := secure }, normalizeApiError e)

/-- `getErrorMessage` on a normalized API error returns its message. -/
def getErrorMessage (e : ApiError) : String := e.message

/-! ## Auth service (src/features/auth/services/auth.service.ts) -/

structure ApiUser where
  id : String
  email : String
  name : Option String
  role : UserRole
  emailVerified : Bool
  image : Option String
  createdAt : String
  updatedAt : String
deriving DecidableEq, Repr

structure ApiSession where
  id : String
  userId : String
  expiresAt : String
  token : String
deriving DecidableEq, Repr

structure AuthSession where
  user : ApiUser
  session : ApiSession
deriving DecidableEq, Repr

/-- `authService.getSession`: the underlying request either resolves with
the session payload or rejects with a normalized `ApiError`.  The source
wraps the call in try/catch and returns `null` from the catch branch, so
every rejection, regardless of status, becomes a successful `none`. -/
def getSession (r : Except ApiError AuthSession) :
    Except ApiError (Option AuthSession) :=
  match r with
  | .ok d => .ok (some d)
  | .error _ => .ok none

/-! ## Auth orchestration hooks (src/features/auth/hooks/useAuth.ts) -/

/-- A sign-in / OTP-verify response as the hooks treat it: both `user` and
`session` are accessed through optional chaining and truthiness guards. -/
structure SignInResponse where
  user : Option ApiUser
  session : Option ApiSession
deriving DecidableEq, Repr

def toStoreUser (u : ApiUser) : StoreUser :=
  { id := u.id, email := u.email, name := u.name, role := u.role }

/-- `data.session?.token`. -/
def sessionTokenOpt (r : SignInResponse) : Option String :=
  r.session.map ApiSession.token

/-- The shared `onSuccess` body of `useSignIn`, `useVerifyEmailOTP` and
`useSignInWithOTP`: if `data.session?.token` is truthy, write it to secure
storage under `swuva-auth-token`; if `data.user` is present, call
`setAuth(user, data.session?.token || '')`. -/
def applyAuthSuccess (data : SignInResponse) (w : ClientWorld) : ClientWorld :=
  let secure :=
    match sessionTokenOpt data with
    | some t => if t = "" then w.secure else setItem w.secure tokenKey t
    | none => w.secure
  let auth :=
    match data.user with
    | some u => setAuth w.auth (toStoreUser u) (jsOrStr (sessionTokenOpt data) "")
    | none => w.auth
  { auth := auth, secure := secure }

def signInOnSuccess (data : SignInResponse) (w : ClientWorld) : ClientWorld :=
  applyAuthSuccess data w

def verifyEmailOtpOnSuccess (data : SignInResponse) (w : ClientWorld) : ClientWorld :=
  applyAuthSuccess data w

def signInWithOtpOnSuccess (data : SignInResponse) (w : ClientWorld) : ClientWorld :=
  applyAuthSuccess data w

/-- `useSignOut.onSuccess`: delete the stored token, call `logout()`. -/
def signOutOnSuccess (w : ClientWorld) : ClientWorld :=
  { auth := logout w.auth, secure := deleteItem w.secure tokenKey }

/-- `useSignOut.onError`: identical local teardown even when the remote
call failed. -/
def signOutOnError (w : ClientWorld) : ClientWorld :=
  { auth := logout w.auth, secure := deleteItem w.secure tokenKey }

/-- The settled sign-out mutation, in either outcome of the API call. -/
def signOutSettle (remoteOk : Bool) (w : ClientWorld) : ClientWorld :=
  if remoteOk then signOutOnSuccess w else signOutOnError w

/-! ## Navigation guard on the splash screen (app/splash.tsx) -/

inductive Route
  | tabs
  | login
  | onboarding
deriving DecidableEq, Repr

/-- Component-local state of the splash screen together with the store
inputs it subscribes to: `isAnimationComplete` (local state),
`hasNavigated` (the `hasNavigatedRef` ref), the store's `isHydrated` and
`isAuthenticated`, and the AsyncStorage onboarding flag consumed inside
`navigate` (with `onboardingReadFails` modelling the catch branch of the
read). -/
structure SplashState where
  isAnimationComplete : Bool
  isHydrated : Bool
  isAuthenticated : Bool
  hasNavigated : Bool
  onboardingFlag : Option String
  onboardingReadFails : Bool
deriving DecidableEq, Repr

def splashInit : SplashState :=
  { isAnimationComplete := false, isHydrated := false, isAuthenticated := false,
    hasNavigated := false, onboardingFlag := none, onboardingReadFails := false }

/-- The `navigate` closure: authenticated users go to the tabs group;
otherwise the onboarding-completed flag (when readable and `'true'`)
sends the user to login, and anything else falls through to onboarding. -/
def splashNavigate (s : SplashState) : Route :=
  if s.isAuthenticated then .tabs
  else if !s.onboardingReadFails && s.onboardingFlag == some "true" then .login
  else .onboarding

/-- One run of the splash `useEffect` body: the guard clause returns
without any redirect decision unless the animation is complete, the store
is hydrated and no navigation has happened yet; past the guard it marks
`hasNavigatedRef` and performs exactly one redirect. -/
def splashEffect (s : SplashState) : SplashState × Option Route :=
  if !s.isAnimationComplete || !s.isHydrated || s.hasNavigated then (s, none)
  else ({ s with hasNavigated := true }, some (splashNavigate s))

/-- A change to one of the effect's dependencies. -/
inductive SplashEvent
  | animationDone
  | hydrated (b : Bool)
  | authChanged (b : Bool)
deriving DecidableEq, Repr

def applySplashEvent (s : SplashState) : SplashEvent → SplashState
  | .animationDone => { s with isAnimationComplete := true }
  | .hydrated b => { s with isHydrated := b }
  | .authChanged b => { s with isAuthenticated := b }

/-- Each dependency change re-runs the effect. -/
def splashStep (s : SplashState) (e : SplashEvent) : SplashState × Option Route :=
  splashEffect (applySplashEvent s e)

/-- Run a whole interleaving of dependency changes, collecting every
redirect decision made. -/
def runSplash : SplashState → List SplashEvent → SplashState × List Route
  | s, [] => (s, [])
  | s, e :: es =>
    let r := splashStep s e
    let rest := runSplash r.1 es
    (rest.1, (match r.2 with | some rt => [rt] | none => []) ++ rest.2)

def turnsHydrationOn : SplashEvent → Bool
  | .hydrated true => true
  | _ => false

/-! ## OTP verification screen: auto-submit (app/(auth)/verify-otp.tsx) -/

/-- Screen state for the OTP auto-submit logic: the entered digits, the
displayed validation error, whether a verification mutation is in flight
(`verifyOTP.isPending`), whether the 300ms auto-submit timeout is
scheduled, how many verification calls have been started, and whether the
screen has navigated away after a successful verification. -/
structure OtpScreenState where
  otp : String
  error : Option String
  inFlight : Bool
  pendingAuto : Bool
  calls : Nat
  done : Bool
deriving DecidableEq, Repr

/-- The auto-verify `useEffect`: its cleanup clears any previously
scheduled timeout, and the new run schedules one exactly when 6 digits
are present, no call is pending and no error is displayed. -/
def otpAutoEffect (s : OtpScreenState) : OtpScreenState :=
  if s.otp.length == 6 && !s.inFlight && s.error.isNone then
    { s with pendingAuto := true }
  else
    { s with pendingAuto := false }

/-- `handleVerify`: an incomplete code only sets a validation error; a
complete code starts one verification mutation. -/
def handleVerify (s : OtpScreenState) : OtpScreenState :=
  if s.otp.length ≠ 6 then
    { s with error := some "Please enter the complete verification code" }
  else
    { s with calls := s.calls + 1, inFlight := true }

/-- `handleOtpChange`: store the new value and clear any displayed
error. -/
def handleOtpChange (s : OtpScreenState) (v : String) : OtpScreenState :=
  { s with otp := v, error := none }

inductive OtpEvent
  | change (v : String)
  | autoFire
  | settle (ok : Bool)
deriving DecidableEq, Repr

def isSettle : OtpEvent → Bool
  | .settle _ => true
  | _ => false

/-- One event on the OTP screen.  Every state change re-runs the
auto-verify effect (recomputing the scheduled timeout); a successful
settle navigates away (`router.replace`), after which the unmounted
screen processes nothing further. -/
def otpStep (s : OtpScreenState) : OtpEvent → OtpScreenState
  | .change v => if s.done then s else otpAutoEffect (handleOtpChange s v)
  | .autoFire =>
    if s.done then s
    else if s.pendingAuto then otpAutoEffect (handleVerify { s with pendingAuto := false })
    else s
  | .settle ok =>
    if s.done then s
    else if s.inFlight then
      if ok then { s with inFlight := false, done := true }
      else otpAutoEffect { s with inFlight := false, error := some "Invalid code" }
    else s

/-- Mount: empty input, no error, effect runs once. -/
def initOtpState : OtpScreenState :=
  otpAutoEffect
    { otp := "", error := none, inFlight := false, pendingAuto := false,
      calls := 0, done := false }

def runOtp : OtpScreenState → List OtpEvent → OtpScreenState
  | s, [] => s
  | s, e :: es => runOtp (otpStep s e) es

def noSettle (es : List OtpEvent) : Bool :=
  es.all (fun e => !(isSettle e))

/-- A rapid keystroke sequence completing the sixth digit, followed by the
scheduled auto-submit timeout firing. -/
def otpRapidTrace : List OtpEvent :=
  [.change "1", .change "12", .change "123", .change "1234",
   .change "12345", .change "123456", .autoFire]

/-- Invariant carried by the OTP screen between events: a scheduled
auto-submit timeout implies a complete code, no call in flight and no
error displayed; at most one call has been started, and if one has been,
it is still in flight (absent a settle event). -/
def OtpInv (s : OtpScreenState) : Prop :=
  (s.pendingAuto = true → s.otp.length = 6 ∧ s.inFlight = false ∧ s.error = none) ∧
  s.calls ≤ 1 ∧ (s.calls = 1 → s.inFlight = true)

/-! ## OTP resend countdown (app/(auth)/verify-otp.tsx) -/

/-- The countdown state: `countdown` seconds remaining, `canResend`
(READY when true), and whether the interval timer is still running. -/
structure CountdownState where
  countdown : Nat
  canResend : Bool
  timerActive : Bool
deriving DecidableEq, Repr

/-- `startCountdown`: reset to 60, disable resend, (re)start the
interval. -/
def startCountdownState : CountdownState :=
  { countdown := 60, canResend := false, timerActive := true }

/-- One interval tick: `prev <= 1` clears the interval, enables resend and
pins the counter at 0; otherwise it decrements. A cleared timer ticks no
more. -/
def countdownTick (s : CountdownState) : CountdownState :=
  if s.timerActive then
    if s.countdown ≤ 1 then { countdown := 0, canResend := true, timerActive := false }
    else { s with countdown := s.countdown - 1 }
  else s

def readyState : CountdownState :=
  { countdown := 0, canResend := true, timerActive := false }

/-- `handleResend` guarded by `canResend` and a pending resend request;
its `onSuccess` restarts the countdown. -/
def handleResendSuccess (pending : Bool) (s : CountdownState) : CountdownState :=
  if !s.canResend || pending then s else startCountdownState

/-! ## Forgot-password screen (app/(auth)/forgot-password.tsx) -/

def isWsChar (c : Char) : Bool :=
  c == ' ' || c == '\t' || c == '\n' || c == '\r'

/-- JavaScript `String.prototype.trim()`. -/
def strTrim (s : String) : String :=
  String.mk (((s.data.dropWhile isWsChar).reverse.dropWhile isWsChar).reverse)

/-- JavaScript `String.prototype.toLowerCase()` (ASCII range). -/
def strToLower (s : String) : String :=
  String.mk (s.data.map Char.toLower)

/-- Character-list check that `needle` starts `hay`. -/
def leadsWith : List Char → List Char → Bool
  | [], _ => true
  | _ :: _, [] => false
  | a :: as, b :: bs => a == b && leadsWith as bs

/-- JavaScript `hay.includes(needle)`. -/
def strContains (hay needle : String) : Bool :=
  (List.range (hay.data.length + 1)).any (fun i => leadsWith needle.data (hay.data.drop i))

/-- Split a character list on a separator character. -/
def splitOnChar (sep : Char) : List Char → List (List Char)
  | [] => [[]]
  | c :: rest =>
    let r := splitOnChar sep rest
    if c == sep then [] :: r
    else
      match r with
      | [] => [[c]]
      | h :: t => (c :: h) :: t

/-- The local-part character class of `EMAIL_REGEX` in
src/utils/validation.ts, by character code (letters and digits plus
the regex's listed specials). -/
def isLocalChar (c : Char) : Bool :=
  c.isAlphanum ||
    [33, 35, 36, 37, 38, 39, 42, 43, 45, 46, 47, 61, 63, 94, 95, 96,
     123, 124, 125, 126].contains c.toNat

/-- One domain label of `EMAIL_REGEX`: an alphanumeric, optionally
followed by up to 61 alphanumeric-or-hyphen characters and a final
alphanumeric. -/
def labelOk : List Char → Bool
  | [] => false
  | [c] => c.isAlphanum
  | c :: rest =>
    c.isAlphanum && decide (rest.length ≤ 62) &&
      rest.dropLast.all (fun d => d.isAlphanum || d == '-') &&
      (match rest.getLast? with
       | some d => d.isAlphanum
       | none => false)

/-- `validateEmail`: `EMAIL_REGEX.test(email.trim())`.  The local and
domain classes both exclude `@`, so a match has exactly one `@`; the
domain is dot-separated labels. -/
def validateEmail (email : String) : Bool :=
  match splitOnChar '@' (strTrim email).data with
  | [loc, dom] =>
    !loc.isEmpty && loc.all isLocalChar && (splitOnChar '.' dom).all labelOk
  | _ => false

/-- `sanitizeEmail`: trim then lowercase. -/
def sanitizeEmail (email : String) : String :=
  strToLower (strTrim email)

/-- The screen's `validateForm`: empty after trim or regex failure blocks
the submission. -/
def validateForm (email : String) : Bool :=
  !(strTrim email).isEmpty && validateEmail (strTrim email)

/-- The user-visible outcome of one `handleSubmit` run. -/
inductive ForgotOutcome
  | invalid
  | alertRateLimit
  | alertNetwork
  | navigateReset (email : String)
deriving DecidableEq, Repr

/-- The settled forgot-password mutation. -/
inductive ForgotResult
  | ok
  | err (e : ApiError)
deriving DecidableEq, Repr

/-- `handleSubmit`: validation failure stops before the network; a success
navigates to the reset-password screen; an error is inspected for
rate-limit and network substrings, and every other error — including
"email not found" — falls through to the same navigation as success. -/
def forgotHandleSubmit (email : String) (r : ForgotResult) : ForgotOutcome :=
  if validateForm email then
    match r with
    | .ok => .navigateReset (sanitizeEmail email)
    | .err e =>
      let m := strToLower (getErrorMessage e)
      if strContains m "rate" || strContains m "too many" then .alertRateLimit
      else if strContains m "network" || strContains m "connection" then .alertNetwork
      else .navigateReset (sanitizeEmail email)
  else .invalid

/-! ## Concrete instances used by counterexamples and witnesses -/

def err500 : ApiError :=
  { message := "Internal Server Error", code := "UNKNOWN_ERROR",
    status := 500, errors := none }

def notFoundErr : ApiError :=
  { message := "User not found", code := "USER_NOT_FOUND",
    status := 404, errors := none }

def cexApiUser : ApiUser :=
  { id := "u1", email := "buyer@example.com", name := none, role := .BUYER,
    emailVerified := true, image := none, createdAt := "2025-01-01",
    updatedAt := "2025-01-01" }

/-- A sign-in response whose payload carries a user but no session. -/
def cexSignInResponse : SignInResponse :=
  { user := some cexApiUser, session := none }

/-- A sign-in response with a user and a normal non-empty token. -/
def okSignInResponse : SignInResponse :=
  { user := some cexApiUser,
    session := some { id := "s1", userId := "u1", expiresAt := "2025-02-01",
                      token := "mock-session-token" } }

def cex401Error : RawAxiosError :=
  { responseStatus := some 401, dataMessage := some "Unauthorized",
    dataCode := none, dataErrors := none, message := "Request failed" }

/-! ## Helper lemmas -/

theorem getItem_deleteItem_self (st : SecureKV) (k : String) :
    getItem (deleteItem st k) k = none := by
  induction st with
  | nil => rfl
  | cons p rest ih =>
    by_cases h : p.1 = k <;> simp [deleteItem, getItem, h, ih]

theorem getItem_deleteItem_ne (st : SecureKV) (k k2 : String) (h : k ≠ k2) :
    getItem (deleteItem st k2) k = getItem st k := by
  induction st with
  | nil => rfl
  | cons p rest ih =>
    have hk2 : k2 ≠ k := fun he => h he.symm
    by_cases hp : p.1 = k2
    · have hk : p.1 ≠ k := by rw [hp]; exact hk2
      simp [deleteItem, getItem, hp, hk, hk2, ih]
    · simp [deleteItem, getItem, hp, ih]

theorem applySplashEvent_hasNavigated (s : SplashState) (e : SplashEvent) :
    (applySplashEvent s e).hasNavigated = s.hasNavigated := by
  cases e <;> rfl

theorem runSplash_navigated (es : List SplashEvent) :
    ∀ s : SplashState, s.hasNavigated = true → (runSplash s es).2 = [] := by
  induction es with
  | nil => intro s _; rfl
  | cons e es ih =>
    intro s h
    have hnav : (applySplashEvent s e).hasNavigated = true := by
      rw [applySplashEvent_hasNavigated]; exact h
    have hstep : splashStep s e = (applySplashEvent s e, none) := by
      simp [splashStep, splashEffect, hnav]
    simp [runSplash, hstep, ih _ hnav]

theorem runSplash_count (es : List SplashEvent) :
    ∀ s : SplashState, s.hasNavigated = false →
      ((runSplash s es).2).length ≤ 1 := by
  induction es with
  | nil => intro s _; simp [runSplash]
  | cons e es ih =>
    intro s h
    have hnav : (applySplashEvent s e).hasNavigated = false := by
      rw [applySplashEvent_hasNavigated]; exact h
    by_cases hg : (!(applySplashEvent s e).isAnimationComplete ||
        !(applySplashEvent s e).isHydrated ||
        (applySplashEvent s e).hasNavigated) = true
    · have hstep : splashStep s e = (applySplashEvent s e, none) := by
        simp [splashStep, splashEffect, hg]
      simpa [runSplash, hstep] using ih _ hnav
    · have hstep : splashStep s e =
          ({ applySplashEvent s e with hasNavigated := true },
            some (splashNavigate (applySplashEvent s e))) := by
        simp [splashStep, splashEffect] at hg ⊢
        simp [hg]
      have hrest : (runSplash
          { applySplashEvent s e with hasNavigated := true } es).2 = [] :=
        runSplash_navigated es _ rfl
      simp [runSplash, hstep, hrest]

theorem runSplash_unhydrated (es : List SplashEvent) :
    ∀ s : SplashState, s.isHydrated = false →
      es.all (fun e => !turnsHydrationOn e) = true →
      (runSplash s es).2 = [] := by
  induction es with
  | nil => intro s _ _; rfl
  | cons e es ih =>
    intro s hs hall
    simp only [List.all_cons, Bool.and_eq_true, Bool.not_eq_true'] at hall
    have hs2 : (applySplashEvent s e).isHydrated = false := by
      cases e with
      | animationDone => simpa [applySplashEvent] using hs
      | hydrated b =>
        cases b with
        | false => simp [applySplashEvent]
        | true => simp [turnsHydrationOn] at hall
      | authChanged b => simpa [applySplashEvent] using hs
    have hstep : splashStep s e = (applySplashEvent s e, none) := by
      simp [splashStep, splashEffect, hs2]
    simp [runSplash, hstep, ih _ hs2 hall.2]

theorem otpAutoEffect_fields (s : OtpScreenState) :
    (otpAutoEffect s).otp = s.otp ∧ (otpAutoEffect s).inFlight = s.inFlight ∧
      (otpAutoEffect s).error = s.error ∧ (otpAutoEffect s).calls = s.calls ∧
      (otpAutoEffect s).done = s.done := by
  unfold otpAutoEffect
  split <;> exact ⟨rfl, rfl, rfl, rfl, rfl⟩

theorem otpAutoEffect_pending (s : OtpScreenState)
    (h : (otpAutoEffect s).pendingAuto = true) :
    s.otp.length = 6 ∧ s.inFlight = false ∧ s.error = none := by
  unfold otpAutoEffect at h
  split at h
  case isTrue hc =>
    simpa [Bool.and_eq_true, Bool.not_eq_true', Option.isNone_iff_eq_none,
      beq_iff_eq, and_assoc] using hc
  case isFalse => simp at h

theorem otpInv_autoEffect (t : OtpScreenState) (hc1 : t.calls ≤ 1)
    (hc2 : t.calls = 1 → t.inFlight = true) : OtpInv (otpAutoEffect t) := by
  have hf := otpAutoEffect_fields t
  refine ⟨?_, ?_, ?_⟩
  · intro hpend
    have hp := otpAutoEffect_pending t hpend
    refine ⟨?_, ?_, ?_⟩
    · rw [hf.1]; exact hp.1
    · rw [hf.2.1]; exact hp.2.1
    · rw [hf.2.2.1]; exact hp.2.2
  · rw [hf.2.2.2.1]; exact hc1
  · intro h1
    rw [hf.2.1]
    exact hc2 (by rw [hf.2.2.2.1] at h1; exact h1)

theorem otpStep_preserves (s : OtpScreenState) (e : OtpEvent)
    (hne : isSettle e = false) (h : OtpInv s) : OtpInv (otpStep s e) := by
  obtain ⟨hp, hc1, hc2⟩ := h
  cases e with
  | change v =>
    by_cases hd : s.done = true
    · simpa [otpStep, hd] using ⟨hp, hc1, hc2⟩
    · simp only [otpStep, hd, if_false]
      exact otpInv_autoEffect _ hc1 hc2
  | autoFire =>
    by_cases hd : s.done = true
    · simpa [otpStep, hd] using ⟨hp, hc1, hc2⟩
    · by_cases hpend : s.pendingAuto = true
      · obtain ⟨hlen, hinf, herr⟩ := hp hpend
        have hcalls0 : s.calls = 0 := by
          rcases Nat.lt_or_ge s.calls 1 with h0 | h0
          · omega
          · have hx : s.calls = 1 := by omega
            rw [hc2 hx] at hinf
            exact absurd hinf (by simp)
        have hstep : otpStep s OtpEvent.autoFire =
            otpAutoEffect (handleVerify { s with pendingAuto := false }) := by
          simp [otpStep, hd, hpend]
        have hv : handleVerify { s with pendingAuto := false } =
            { s with pendingAuto := false, calls := s.calls + 1, inFlight := true } := by
          simp [handleVerify, hlen]
        rw [hstep, hv]
        exact otpInv_autoEffect _ (by simp [hcalls0]) (fun _ => rfl)
      · have hpf : s.pendingAuto = false := by
          cases hxx : s.pendingAuto
          · rfl
          · exact absurd hxx hpend
        simpa [otpStep, hd, hpf] using ⟨hp, hc1, hc2⟩
  | settle ok => simp [isSettle] at hne

theorem runOtp_inv (es : List OtpEvent) :
    ∀ s : OtpScreenState, noSettle es = true → OtpInv s →
      OtpInv (runOtp s es) := by
  induction es with
  | nil => intro s _ h; exact h
  | cons e es ih =>
    intro s hall h
    simp only [noSettle, List.all_cons, Bool.and_eq_true,
      Bool.not_eq_true'] at hall
    exact ih (otpStep s e) (by simp [noSettle, hall.2])
      (otpStep_preserves s e hall.1 h)

/-! ## Claim theorems -/

/-- Claim C1, counterexample: a sign-in response carrying a user but no
session makes the success handler call `setAuth` with the empty string,
leaving the store authenticated with `token = some ""` — the claimed
non-empty-token invariant fails. -/
theorem signIn_empty_token_counterexample :
    (signInOnSuccess cexSignInResponse initialWorld).auth.isAuthenticated = true ∧
      (signInOnSuccess cexSignInResponse initialWorld).auth.token = some "" := by
  exact ⟨rfl, rfl⟩

/-- Claim C1 (amended): on any sign-in / OTP-verify / sign-in-with-OTP
success whose payload includes a user, the store ends authenticated with
that user, and the stored token is `data.session?.token || ''` — the
response token whenever it is present and non-empty, but the empty string
when the response lacks one. -/
theorem signIn_setAuth_amended (data : SignInResponse) (w : ClientWorld)
    (u : ApiUser) (hu : data.user = some u) :
    (signInOnSuccess data w).auth.isAuthenticated = true ∧
      (signInOnSuccess data w).auth.user = some (toStoreUser u) ∧
      (signInOnSuccess data w).auth.token
        = some (jsOrStr (sessionTokenOpt data) "") ∧
      verifyEmailOtpOnSuccess data w = signInOnSuccess data w ∧
      signInWithOtpOnSuccess data w = signInOnSuccess data w ∧
      (∀ t, sessionTokenOpt data = some t → t ≠ "" →
        (signInOnSuccess data w).auth.token = some t) := by
  refine ⟨?_, ?_, ?_, rfl, rfl, ?_⟩
  · simp [signInOnSuccess, applyAuthSuccess, hu, setAuth]
  · simp [signInOnSuccess, applyAuthSuccess, hu, setAuth]
  · simp [signInOnSuccess, applyAuthSuccess, hu, setAuth]
  · intro t ht hne
    simp [signInOnSuccess, applyAuthSuccess, hu, setAuth, ht, jsOrStr, hne]

/-- Claim C1 witness: the amended theorem at a concrete response with a
user and a non-empty token. -/
theorem signIn_setAuth_amended_witness :
    (signInOnSuccess okSignInResponse initialWorld).auth.isAuthenticated = true :=
  (signIn_setAuth_amended okSignInResponse initialWorld cexApiUser rfl).1

/-- Claim C2, counterexample: for a 500 failure, `getSession` returns a
successful `none` rather than propagating the normalized error — the
catch branch swallows every rejection, not only 401. -/
theorem getSession_500_counterexample :
    getSession (Except.error err500) = Except.ok none ∧
      ¬ ∃ e : ApiError, getSession (Except.error err500) = Except.error e := by
  refine ⟨rfl, ?_⟩
  rintro ⟨e, he⟩
  exact Except.noConfusion he

/-- Claim C2 (amended): `getSession` maps every rejected request —
regardless of status, including 500 — to a successful `none`, and a
resolved request to the session payload; only the 401 half of the claim
matches the code. -/
theorem getSession_amended (e : ApiError) (s : AuthSession) :
    getSession (Except.error e) = Except.ok none ∧
      getSession (Except.ok s) = Except.ok (some s) :=
  ⟨rfl, rfl⟩

/-- Claim C3, counterexample: after the animation completes and the store
hydrates, the guard issues its single redirect; a subsequent change of
`isAuthenticated` then produces no redirect decision at all, because
`hasNavigatedRef` makes the effect one-shot. -/
theorem splash_one_shot_counterexample :
    (runSplash splashInit
        [SplashEvent.animationDone, SplashEvent.hydrated true]).2
      = [Route.onboarding] ∧
      (splashStep (runSplash splashInit
          [SplashEvent.animationDone, SplashEvent.hydrated true]).1
        (SplashEvent.authChanged true)).2 = none := by
  decide

/-- Claim C3 (amended): the splash guard performs zero redirect decisions
while `isHydrated = false` (for any interleaving that never turns
hydration on), and at most one redirect decision in total per mount — the
first effect run that passes the animation/hydration guard navigates, and
every later change of the inputs is ignored. -/
theorem splash_guard_one_shot (s : SplashState) (es : List SplashEvent)
    (h : s.hasNavigated = false) :
    ((runSplash s es).2).length ≤ 1 ∧
      (s.isHydrated = false → es.all (fun e => !turnsHydrationOn e) = true →
        (runSplash s es).2 = []) :=
  ⟨runSplash_count es s h, fun hs hall => runSplash_unhydrated es s hs hall⟩

/-- Claim C3 witness: the amended bound at a concrete interleaving. -/
theorem splash_guard_one_shot_witness :
    ((runSplash splashInit
        [SplashEvent.animationDone, SplashEvent.hydrated true,
         SplashEvent.authChanged true]).2).length ≤ 1 :=
  (splash_guard_one_shot splashInit
    [SplashEvent.animationDone, SplashEvent.hydrated true,
     SplashEvent.authChanged true] rfl).1

/-- Claim C4: in both outcomes of the remote sign-out call the local
teardown is identical — the secure-storage token is deleted and the
store is logged out, with `rememberedEmail` untouched. -/
theorem signOut_always_clears (remoteOk : Bool) (w : ClientWorld) :
    (signOutSettle remoteOk w).auth.user = none ∧
      (signOutSettle remoteOk w).auth.token = none ∧
      (signOutSettle remoteOk w).auth.isAuthenticated = false ∧
      getItem (signOutSettle remoteOk w).secure tokenKey = none ∧
      (signOutSettle remoteOk w).auth.rememberedEmail
        = w.auth.rememberedEmail := by
  cases remoteOk <;>
    simp [signOutSettle, signOutOnSuccess, signOutOnError, logout,
      getItem_deleteItem_self]

/-- Claim C5: `logout()` clears user, token and the authenticated flag
while leaving `rememberedEmail` and `isHydrated` exactly as they were,
for every prior store state. -/
theorem logout_preserves_remembered_email (s : AuthState) :
    (logout s).user = none ∧ (logout s).token = none ∧
      (logout s).isAuthenticated = false ∧
      (logout s).rememberedEmail = s.rememberedEmail ∧
      (logout s).isHydrated = s.isHydrated :=
  ⟨rfl, rfl, rfl, rfl, rfl⟩

/-- Claim C6: the rehydration completion callback sets
`isHydrated = true` in every outcome of the durable-storage load, and the
error outcome leaves the in-memory defaults (logged out) otherwise
untouched. -/
theorem rehydrate_always_sets_hydrated (r : RehydrateOutcome) :
    (hydrateStore r).isHydrated = true ∧
      (∀ m : String, hydrateStore (RehydrateOutcome.failed m)
        = { initialAuthState with isHydrated := true }) := by
  refine ⟨?_, fun m => rfl⟩
  cases r <;> rfl

/-- Claim C7: for every event interleaving of digit entries and
auto-submit timer firings (no mutation settling in between), at most one
verification call is ever started — and the canonical rapid six-digit
entry followed by the timeout starts exactly one. -/
theorem otp_auto_submit_single (es : List OtpEvent) (h : noSettle es = true) :
    (runOtp initOtpState es).calls ≤ 1 ∧
      (runOtp initOtpState otpRapidTrace).calls = 1 := by
  have hinit : OtpInv initOtpState := by
    refine ⟨?_, by decide, ?_⟩
    · intro hp; exact absurd hp (by decide)
    · intro h1; exact absurd h1 (by decide)
  refine ⟨(runOtp_inv es initOtpState h hinit).2.1, by decide⟩

/-- Claim C7 witness: the rapid six-digit entry trace. -/
theorem otp_auto_submit_single_witness :
    (runOtp initOtpState otpRapidTrace).calls ≤ 1 ∧
      (runOtp initOtpState otpRapidTrace).calls = 1 :=
  otp_auto_submit_single otpRapidTrace (by decide)

set_option maxRecDepth 4000 in
/-- Claim C8: the resend countdown starts in COUNTING(60); each tick of a
running timer decrements by one; after 60 ticks the state is READY
(resend enabled, timer stopped) and further ticks leave it READY; a
successful resend from READY restarts COUNTING(60). -/
theorem otp_countdown_machine :
    (∀ n : Nat, countdownTick
        { countdown := n + 2, canResend := false, timerActive := true }
        = { countdown := n + 1, canResend := false, timerActive := true }) ∧
      Nat.iterate countdownTick 60 startCountdownState = readyState ∧
      countdownTick readyState = readyState ∧
      handleResendSuccess false readyState = startCountdownState := by
  refine ⟨?_, by decide, by decide, by decide⟩
  intro n
  have h1 : ¬ (n + 2 ≤ 1) := by omega
  have h2 : n + 2 - 1 = n + 1 := by omega
  simp [countdownTick, h1, h2]

/-- Claim C9: the forgot-password submit handler produces the same
user-visible outcome for a failing backend response as for a success,
whenever the error message carries none of the rate-limit or network
substrings — in particular an "email not found" error navigates to the
same OTP-entry (reset-password) screen with the same email. -/
theorem forgot_password_enum_safe (email : String) (e : ApiError)
    (hr : strContains (strToLower e.message) "rate" = false)
    (ht : strContains (strToLower e.message) "too many" = false)
    (hn : strContains (strToLower e.message) "network" = false)
    (hc : strContains (strToLower e.message) "connection" = false) :
    forgotHandleSubmit email (ForgotResult.err e)
      = forgotHandleSubmit email ForgotResult.ok := by
  by_cases hv : validateForm email = true
  · simp [forgotHandleSubmit, hv, getErrorMessage, hr, ht, hn, hc]
  · simp [forgotHandleSubmit, hv]

/-- Claim C9 witness: a concrete "email not found" backend error yields
the same outcome as a success for a valid submitted email. -/
theorem forgot_password_enum_safe_witness :
    forgotHandleSubmit "user@example.com" (ForgotResult.err notFoundErr)
      = forgotHandleSubmit "user@example.com" ForgotResult.ok :=
  forgot_password_enum_safe "user@example.com" notFoundErr
    (by decide) (by decide) (by decide) (by decide)

/-- Claim C10: on any 401 response the interceptor deletes both
secure-storage keys and rejects with the normalized error, while the
persisted session store is left completely unchanged. -/
theorem api_401_destroys_cached_tokens (w : ClientWorld) (e : RawAxiosError)
    (h : e.responseStatus = some 401) :
    getItem (interceptResponseError w e).1.secure tokenKey = none ∧
      getItem (interceptResponseError w e).1.secure legacyAuthKey = none ∧
      (interceptResponseError w e).1.auth = w.auth ∧
      (interceptResponseError w e).2 = normalizeApiError e := by
  refine ⟨?_, ?_, rfl, rfl⟩
  · have h1 : getItem (deleteItem (deleteItem w.secure tokenKey)
        legacyAuthKey) tokenKey = none := by
      rw [getItem_deleteItem_ne _ _ _ (by decide), getItem_deleteItem_self]
    simpa [interceptResponseError, h] using h1
  · have h2 : getItem (deleteItem (deleteItem w.secure tokenKey)
        legacyAuthKey) legacyAuthKey = none := getItem_deleteItem_self _ _
    simpa [interceptResponseError, h] using h2

/-- Claim C10 witness: the interceptor theorem at a concrete 401 error. -/
theorem api_401_destroys_cached_tokens_witness :
    getItem (interceptResponseError initialWorld cex401Error).1.secure
      tokenKey = none :=
  (api_401_destroys_cached_tokens initialWorld cex401Error rfl).1
